import Mathlib

/-!
Verification of the transport layer of a lightweight local RPC library
(listener / connection primitives over Unix-domain sockets with readiness
polling, and over Windows named pipes with completion I/O).

The Rust sources are shallowly embedded: each operation becomes a pure
Lean function over an explicit environment recording the outcomes of the
OS calls the operation performs (poll results, recv/send results,
overlapped-I/O results, the thread-local last error, ...).  Machine
integers are modelled as `Nat`; fallible paths return sum types; the one
place the source can panic (`unwrap` / `unimplemented!`) is modelled by a
distinguished `panic` constructor so that panic-freedom is statable.
-/

/-- Errno for an interrupted syscall, `libc::EINTR`. -/
def EINTR : Nat := 4

/-- Errno for would-block, `libc::EAGAIN`. -/
def EAGAIN : Nat := 11

/-- Outcome of one `recv`/`send` syscall: a byte count or an errno.
Mirrors `nix::Result<usize>` in `net.rs`. -/
inductive SysRes where
  | ok (len : Nat)
  | err (errno : Nat)
deriving DecidableEq, Repr

/-- Embeds `fn retryable(e: nix::Error) -> bool` from `net.rs`:
`e == Error::EINTR || e == Error::EAGAIN`. -/
def retryable (e : Nat) : Bool :=
  e == EINTR || e == EAGAIN

/-- Embeds the `loop { match recv(...) ... }` body of
`impl Read for LinuxConnection`: the syscall is modelled by the list of
outcomes its successive invocations would produce; the loop skips
retryable errors, returns `Ok(l)` on a success and `Err(e)` on any other
error.  `none` models a trace on which the loop never exits. -/
def LinuxConnection.read : List SysRes → Option (Except Nat Nat)
  | [] => none
  | SysRes.ok l :: _ => some (Except.ok l)
  | SysRes.err e :: rest =>
      if retryable e then LinuxConnection.read rest else some (Except.error e)

/-- Embeds the `loop { match send(...) ... }` body of
`impl Write for LinuxConnection`, structurally identical to `read`. -/
def LinuxConnection.write : List SysRes → Option (Except Nat Nat)
  | [] => none
  | SysRes.ok l :: _ => some (Except.ok l)
  | SysRes.err e :: rest =>
      if retryable e then LinuxConnection.write rest else some (Except.error e)

/-- Outcome of the `libc::poll` call in `LinuxListener::accept`:
either `-1` with an errno, or a return value `n ≥ 0` together with the
`revents` of the wake-channel descriptor (index 0) and of the listening
descriptor (index 1). -/
inductive PollRes where
  | fail (errno : Nat)
  | done (n : Nat) (rev0 rev1 : Nat)
deriving DecidableEq, Repr

/-- Errors `LinuxListener::accept` can return: the distinguished
"listener shutdown for quit flag" error, or an OS error (from the poll
wait or from `accept4`). -/
inductive AcceptErr where
  | shutdown
  | os (errno : Nat)
deriving DecidableEq, Repr

/-- Result of `LinuxListener::accept`:
`Err(e)`, `Ok(None)` or `Ok(Some(LinuxConnection { fd }))`. -/
inductive AcceptRes where
  | err (e : AcceptErr)
  | retry
  | conn (fd : Nat)
deriving DecidableEq, Repr

/-- Environment of one `LinuxListener::accept` call: the value the quit
flag load yields at entry, the poll outcome, the value the second quit
flag load yields, and the `accept4` outcome (new fd or errno). -/
structure AcceptEnv where
  quit1 : Bool
  poll : PollRes
  quit2 : Bool
  accept4 : Except Nat Nat
deriving Repr

/-- Embeds `impl Listener for LinuxListener :: accept` from `net.rs`:
quit check at entry; blocking poll over wake channel and listening fd;
`-1` propagates the errno (EINTR included); `n < 1` yields `Ok(None)`;
wake-channel fired or listening fd silent yields `Ok(None)`; quit
re-check; `accept4`, whose errno propagates; otherwise the new fd is
wrapped in a connection. -/
def LinuxListener.accept (env : AcceptEnv) : AcceptRes :=
  if env.quit1 then AcceptRes.err AcceptErr.shutdown
  else
    match env.poll with
    | PollRes.fail errno => AcceptRes.err (AcceptErr.os errno)
    | PollRes.done n rev0 rev1 =>
      if n < 1 then AcceptRes.retry
      else if rev0 ≠ 0 ∨ rev1 = 0 then AcceptRes.retry
      else if env.quit2 then AcceptRes.err AcceptErr.shutdown
      else
        match env.accept4 with
        | Except.error e => AcceptRes.err (AcceptErr.os e)
        | Except.ok fd => AcceptRes.conn fd

/-- Outcome of a `close()` call as seen by the caller: it returns
normally (`Ok` in the source; errors the source swallows are logged and
turned into `Ok`), or the thread panics. -/
inductive CloseOutcome where
  | ok
  | panic
deriving DecidableEq, Repr

/-- Embeds `impl Close for LinuxListener`: `close(self.monitor_fd.1)`
with `unwrap_or_else` logging any error, then `Ok(())` — the outcome of
the underlying `close` syscall (success or errno) never escapes. -/
def LinuxListener.close (_sysClose : Except Nat Unit) : CloseOutcome :=
  CloseOutcome.ok

/-- Embeds `impl Close for LinuxConnection`: the body is
`unimplemented!()`, which panics unconditionally. -/
def LinuxConnection.close : CloseOutcome :=
  CloseOutcome.panic

/-- Modelled from the spec: `common::do_bind` (in `common.rs`, not part
of the provided sources) binds a listening socket at the given path and
fails with an error — never a panic — when the path is invalid, e.g. in
a nonexistent directory.  Its outcome is passed in as an oracle value:
`Ok(fd)` or an errno. -/
def do_bind (outcome : Except Nat Nat) : Except Nat Nat :=
  outcome

/-- Embeds `LinuxListener::new` from `net.rs`: `do_bind(sockaddr)?`,
`do_listen(fd)?`, `new_monitor_fd()?`, then the listener value; every
failure propagates with `?` (no panic path exists). The outcomes of the
three fallible steps are oracle parameters. -/
def LinuxListener.new (bindRes : Except Nat Nat)
    (listenRes : Except Nat Unit) (monRes : Except Nat (Nat × Nat)) :
    Except Nat (Nat × Nat × Nat) :=
  match do_bind bindRes with
  | Except.error e => Except.error e
  | Except.ok fd =>
    match listenRes with
    | Except.error e => Except.error e
    | Except.ok _ =>
      match monRes with
      | Except.error e => Except.error e
      | Except.ok fds => Except.ok (fd, fds)

/-- Windows last-error code `ERROR_IO_PENDING`. -/
def ERROR_IO_PENDING : Nat := 997

/-- Windows last-error code `ERROR_PIPE_CONNECTED`. -/
def ERROR_PIPE_CONNECTED : Nat := 535

/-- Windows last-error code `ERROR_BROKEN_PIPE`. -/
def ERROR_BROKEN_PIPE : Nat := 109

/-- Largest value of a `u32`, the bound the completion backend clamps a
transfer length to. -/
def U32_MAX : Nat := 4294967295

/-- A Windows pipe listener as stored by `PipeListener` in
`sync/sys/windows/net.rs`: the `first_instance` flag and the address
string. -/
structure PipeListener where
  first_instance : Bool
  address : String
deriving DecidableEq, Repr

/-- Embeds `PipeListener::new`: it stores the address and initialises
`first_instance` to true, and returns `Ok` unconditionally — no
validation of the address happens here. -/
def PipeListener.new (sockaddr : String) : Except Nat PipeListener :=
  Except.ok (PipeListener.mk true sockaddr)

/-- Environment of one `PipeListener::accept` call: the quit-flag load,
the `new_instance()` outcome (pipe handle or error — the source calls
`.unwrap()` on it), the return value of `ConnectNamedPipe`, the
thread-local last error after that call, and the `GetOverlappedResult`
outcome (return value, transferred count, last error) used when the
connect is pending. -/
structure WinAcceptEnv where
  quit : Bool
  newInstance : Except Nat Nat
  connectRet : Nat
  lastError : Nat
  ovRes : Nat
  ovLastError : Nat
deriving Repr

/-- Result of `PipeListener::accept`: a panic (from `.unwrap()` on a
failed `new_instance`), the distinguished shutdown error, an OS error
(`io::Error::last_os_error`), the wrapped "failed to connect pipe"
error, or a connection holding the pipe handle. -/
inductive WinAcceptRes where
  | panic
  | errShutdown
  | errOs (code : Nat)
  | errConnect (code : Nat)
  | conn (handle : Nat)
deriving DecidableEq, Repr

/-- Embeds `PipeListener::accept` from `sync/sys/windows/net.rs`: quit
check at entry; `new_instance().unwrap()` (panics on failure);
`ConnectNamedPipe` — a nonzero return yields `Err(last_os_error())`;
then the last error is matched: `ERROR_IO_PENDING` blocks on
`GetOverlappedResult`, whose zero return yields `Err(last_os_error())`
and whose nonzero return yields the connection; `ERROR_PIPE_CONNECTED`
yields the connection; anything else yields the wrapped
"failed to connect pipe" error. -/
def PipeListener.accept (env : WinAcceptEnv) : WinAcceptRes :=
  if env.quit then WinAcceptRes.errShutdown
  else
    match env.newInstance with
    | Except.error _ => WinAcceptRes.panic
    | Except.ok np =>
      if env.connectRet ≠ 0 then WinAcceptRes.errOs env.lastError
      else if env.lastError = ERROR_IO_PENDING then
        if env.ovRes = 0 then WinAcceptRes.errOs env.ovLastError
        else WinAcceptRes.conn np
      else if env.lastError = ERROR_PIPE_CONNECTED then WinAcceptRes.conn np
      else WinAcceptRes.errConnect env.lastError

/-- Embeds `impl PipeListener :: close`: the body is `Ok(())`. -/
def PipeListener.close : CloseOutcome :=
  CloseOutcome.ok

/-- Result of `PipeConnection::read` / `PipeConnection::write`:
`Ok(n)`, `Err(Error::Windows(code))`, or the generic
`Err(Error::Others(...))` whose message formats the io error `code`. -/
inductive WinIoRes where
  | ok (n : Nat)
  | errWindows (code : Nat)
  | errOthers (code : Nat)
deriving DecidableEq, Repr

/-- Environment of one `PipeConnection::read`/`write` call: the buffer
length, the return value of `ReadFile`/`WriteFile`, the byte count it
stored, the thread-local last error after the call (stale when the call
succeeded), and the `GetOverlappedResult` outcome used on the pending
path. -/
structure WinIoEnv where
  bufLen : Nat
  immRes : Nat
  immBytes : Nat
  lastError : Nat
  ovRes : Nat
  ovBytes : Nat
  ovLastError : Nat
deriving DecidableEq, Repr

/-- A completed `read`/`write` call of the completion backend: the
length that was passed to the OS call together with the result returned
to the caller. -/
structure WinIoCall where
  len : Nat
  result : WinIoRes
deriving DecidableEq, Repr

/-- Embeds `PipeConnection::read`: the transfer length is
`min(buf.len(), u32::MAX)`; an immediate completion with nonzero return
and a positive byte count returns that count; otherwise the last error
is matched — `ERROR_IO_PENDING` blocks on `GetOverlappedResult`, whose
zero return yields `Err(Error::Windows(last_os_error))` and whose
nonzero return yields `Ok(bytes_transfered)`; any other last error
yields the generic `Err(Error::Others("failed to read from pipe"))`. -/
def PipeConnection.read (env : WinIoEnv) : WinIoCall :=
  WinIoCall.mk (min env.bufLen U32_MAX)
    (if env.immRes > 0 ∧ env.immBytes > 0 then WinIoRes.ok env.immBytes
     else if env.lastError = ERROR_IO_PENDING then
       if env.ovRes = 0 then WinIoRes.errWindows env.ovLastError
       else WinIoRes.ok env.ovBytes
     else WinIoRes.errOthers env.lastError)

/-- Embeds `PipeConnection::write`, structurally identical to `read`
with `WriteFile` in place of `ReadFile`. -/
def PipeConnection.write (env : WinIoEnv) : WinIoCall :=
  WinIoCall.mk (min env.bufLen U32_MAX)
    (if env.immRes > 0 ∧ env.immBytes > 0 then WinIoRes.ok env.immBytes
     else if env.lastError = ERROR_IO_PENDING then
       if env.ovRes = 0 then WinIoRes.errWindows env.ovLastError
       else WinIoRes.ok env.ovBytes
     else WinIoRes.errOthers env.lastError)

/-- Embeds `fn close_handle(handle)`: `CloseHandle` returning zero
yields `Err(Error::Windows(last_os_error))`, nonzero yields `Ok(())`;
no panic path exists. -/
def close_handle (sysRet : Nat) (lastError : Nat) : Except Nat Unit :=
  if sysRet = 0 then Except.error lastError else Except.ok ()

/-- Embeds `PipeConnection::close`: `close_handle` on the pipe handle,
then on the read event, then on the write event, the first failure
propagating with `?` — every path returns, none panics. -/
def PipeConnection.close (np rd wr : Nat × Nat) : Except Nat Unit :=
  match close_handle np.1 np.2 with
  | Except.error e => Except.error e
  | Except.ok _ =>
    match close_handle rd.1 rd.2 with
    | Except.error e => Except.error e
    | Except.ok _ => close_handle wr.1 wr.2

/-- A syscall-outcome prefix consisting only of retryable errors: the
shape of trace segments the read/write loops absorb. -/
def allRetryErr : List SysRes → Bool
  | [] => true
  | SysRes.ok _ :: _ => false
  | SysRes.err e :: rest => retryable e && allRetryErr rest

/-- The read loop is unchanged by a leading segment of retryable
errors. -/
theorem read_skip (pre rest : List SysRes) (h : allRetryErr pre = true) :
    LinuxConnection.read (pre ++ rest) = LinuxConnection.read rest := by
  induction pre with
  | nil => rfl
  | cons s pre ih =>
    cases s with
    | ok l => simp [allRetryErr] at h
    | err e =>
      rw [allRetryErr, Bool.and_eq_true] at h
      rw [List.cons_append, LinuxConnection.read, if_pos h.1]
      exact ih h.2

/-- The write loop is unchanged by a leading segment of retryable
errors. -/
theorem write_skip (pre rest : List SysRes) (h : allRetryErr pre = true) :
    LinuxConnection.write (pre ++ rest) = LinuxConnection.write rest := by
  induction pre with
  | nil => rfl
  | cons s pre ih =>
    cases s with
    | ok l => simp [allRetryErr] at h
    | err e =>
      rw [allRetryErr, Bool.and_eq_true] at h
      rw [List.cons_append, LinuxConnection.write, if_pos h.1]
      exact ih h.2

/-- C1 counterexample: on the polling backend a blocking `recv` of 0
bytes is returned by `LinuxConnection::read` as the plain success
`Ok(0)` — the very same constructor an ordinary successful read of `l`
bytes yields at `l = 0` — so it is reported as a plain zero-as-success
result, and no distinguished "peer closed" outcome exists in the
return type of this layer. -/
theorem read_zero_is_plain_success :
    LinuxConnection.read [SysRes.ok 0] = some (Except.ok 0) := by
  rfl

/-- C1 amended: `LinuxConnection::read` returns the byte count of the
first successful `recv` unchanged — a peer close hence surfaces as the
ordinary success `Ok(0)`; the peer-closed distinction is not made in
this layer. -/
theorem read_returns_recv_count_unchanged :
    ∀ (l : Nat) (rest : List SysRes),
      LinuxConnection.read (SysRes.ok l :: rest) = some (Except.ok l) := by
  intro l rest
  rfl

/-- C2: on either backend, if the quit flag is observed true at the
entry of `accept`, the call returns the distinguished
"listener shutdown for quit flag" error; in particular it never yields
a connection. -/
theorem accept_rejects_after_quit_observed :
    (∀ env : AcceptEnv, env.quit1 = true →
      LinuxListener.accept env = AcceptRes.err AcceptErr.shutdown ∧
      ∀ fd, LinuxListener.accept env ≠ AcceptRes.conn fd) ∧
    (∀ env : WinAcceptEnv, env.quit = true →
      PipeListener.accept env = WinAcceptRes.errShutdown ∧
      ∀ h, PipeListener.accept env ≠ WinAcceptRes.conn h) := by
  constructor
  · intro env hq
    have : LinuxListener.accept env = AcceptRes.err AcceptErr.shutdown := by
      rw [LinuxListener.accept, if_pos hq]
    refine ⟨this, ?_⟩
    intro fd hc
    rw [this] at hc
    exact AcceptRes.noConfusion hc
  · intro env hq
    have : PipeListener.accept env = WinAcceptRes.errShutdown := by
      rw [PipeListener.accept, if_pos hq]
    refine ⟨this, ?_⟩
    intro h hc
    rw [this] at hc
    exact WinAcceptRes.noConfusion hc

/-- Witness for C2 at concrete environments on both backends. -/
theorem accept_rejects_after_quit_observed_wit :
    LinuxListener.accept
      (AcceptEnv.mk true (PollRes.done 1 0 1) false (Except.ok 9)) =
      AcceptRes.err AcceptErr.shutdown ∧
    PipeListener.accept
      (WinAcceptEnv.mk true (Except.ok 9) 0 997 1 0) =
      WinAcceptRes.errShutdown :=
  ⟨(accept_rejects_after_quit_observed.1 _ rfl).1,
   (accept_rejects_after_quit_observed.2 _ rfl).1⟩

/-- C3: the polling-backend read and write loops retry on exactly the
two errnos EINTR and EAGAIN — after any prefix of such outcomes, a
success is returned as-is (a zero-byte write included) and any other
errno is returned as an error. -/
theorem read_write_retry_exactly_eintr_eagain :
    (∀ e, retryable e = true ↔ e = EINTR ∨ e = EAGAIN) ∧
    (∀ pre l rest, allRetryErr pre = true →
      LinuxConnection.read (pre ++ SysRes.ok l :: rest) =
        some (Except.ok l)) ∧
    (∀ pre e rest, allRetryErr pre = true → retryable e = false →
      LinuxConnection.read (pre ++ SysRes.err e :: rest) =
        some (Except.error e)) ∧
    (∀ pre l rest, allRetryErr pre = true →
      LinuxConnection.write (pre ++ SysRes.ok l :: rest) =
        some (Except.ok l)) ∧
    (∀ pre e rest, allRetryErr pre = true → retryable e = false →
      LinuxConnection.write (pre ++ SysRes.err e :: rest) =
        some (Except.error e)) := by
  refine ⟨?_, ?_, ?_, ?_, ?_⟩
  · intro e
    simp [retryable, EINTR, EAGAIN]
  · intro pre l rest h
    rw [read_skip pre _ h]
    rfl
  · intro pre e rest h hr
    rw [read_skip pre _ h, LinuxConnection.read, if_neg]
    simp [hr]
  · intro pre l rest h
    rw [write_skip pre _ h]
    rfl
  · intro pre e rest h hr
    rw [write_skip pre _ h, LinuxConnection.write, if_neg]
    simp [hr]

/-- Witness for C3: two retryable outcomes (EINTR then EAGAIN) are
absorbed before a 0-byte write success, and a non-retryable errno (32,
EPIPE) surfaces as an error after an absorbed EINTR. -/
theorem read_write_retry_exactly_eintr_eagain_wit :
    LinuxConnection.read
      ([SysRes.err 4, SysRes.err 11] ++ SysRes.ok 5 :: []) =
      some (Except.ok 5) ∧
    LinuxConnection.write
      ([SysRes.err 4, SysRes.err 11] ++ SysRes.ok 0 :: []) =
      some (Except.ok 0) ∧
    LinuxConnection.write
      ([SysRes.err 4] ++ SysRes.err 32 :: []) =
      some (Except.error 32) :=
  ⟨read_write_retry_exactly_eintr_eagain.2.1 _ 5 [] (by decide),
   read_write_retry_exactly_eintr_eagain.2.2.2.1 _ 0 [] (by decide),
   read_write_retry_exactly_eintr_eagain.2.2.2.2 _ 32 [] (by decide)
     (by decide)⟩

/-- C4: `LinuxListener::close` returns normally whatever the underlying
syscall does (so a second call also returns normally), but
`LinuxConnection::close` executes `unimplemented!()` and panics on
every call — contradicting the documented property that close never
panics; the panic is evaluated here at the failing input (any call). -/
theorem connection_close_panics_listener_close_ok :
    (∀ r₁ r₂ : Except Nat Unit,
      LinuxListener.close r₁ = CloseOutcome.ok ∧
      LinuxListener.close r₂ = CloseOutcome.ok) ∧
    LinuxConnection.close = CloseOutcome.panic := by
  exact ⟨fun r₁ r₂ => ⟨rfl, rfl⟩, rfl⟩

/-- C5: on the polling backend, once the readiness wait has returned
without error: a fired wake channel yields `Ok(None)`; a spurious wake
with neither descriptor signalled yields `Ok(None)`; a connection is
returned only when the wake channel is silent, the listening descriptor
is signalled, the re-checked quit flag is false and the accept call
succeeds — and in exactly that situation the accepted fd is returned as
`Ok(Some(connection))`. -/
theorem accept_post_poll_dispatch :
    ∀ (env : AcceptEnv) (n rev0 rev1 : Nat), env.quit1 = false →
      env.poll = PollRes.done n rev0 rev1 →
      ((rev0 ≠ 0 → LinuxListener.accept env = AcceptRes.retry) ∧
       (rev0 = 0 → rev1 = 0 → LinuxListener.accept env = AcceptRes.retry) ∧
       (∀ fd, LinuxListener.accept env = AcceptRes.conn fd →
          rev0 = 0 ∧ rev1 ≠ 0 ∧ env.quit2 = false ∧ 1 ≤ n ∧
          env.accept4 = Except.ok fd) ∧
       (1 ≤ n → rev0 = 0 → rev1 ≠ 0 → env.quit2 = false →
          ∀ fd, env.accept4 = Except.ok fd →
            LinuxListener.accept env = AcceptRes.conn fd)) := by
  intro env n rev0 rev1 hq hp
  have hbody : LinuxListener.accept env =
      (if n < 1 then AcceptRes.retry
       else if rev0 ≠ 0 ∨ rev1 = 0 then AcceptRes.retry
       else if env.quit2 then AcceptRes.err AcceptErr.shutdown
       else
         match env.accept4 with
         | Except.error e => AcceptRes.err (AcceptErr.os e)
         | Except.ok fd => AcceptRes.conn fd) := by
    rw [LinuxListener.accept, if_neg (by simp [hq]), hp]
  refine ⟨?_, ?_, ?_, ?_⟩
  · intro h0
    rw [hbody]
    by_cases hn : n < 1
    · rw [if_pos hn]
    · rw [if_neg hn, if_pos (Or.inl h0)]
  · intro h0 h1
    rw [hbody]
    by_cases hn : n < 1
    · rw [if_pos hn]
    · rw [if_neg hn, if_pos (Or.inr h1)]
  · intro fd hc
    rw [hbody] at hc
    by_cases hn : n < 1
    · rw [if_pos hn] at hc
      exact AcceptRes.noConfusion hc
    · rw [if_neg hn] at hc
      by_cases hw : rev0 ≠ 0 ∨ rev1 = 0
      · rw [if_pos hw] at hc
        exact AcceptRes.noConfusion hc
      · rw [if_neg hw] at hc
        push_neg at hw
        by_cases hq2 : env.quit2 = true
        · rw [if_pos hq2] at hc
          exact AcceptRes.noConfusion hc
        · rw [if_neg hq2] at hc
          cases ha : env.accept4 with
          | error e =>
            rw [ha] at hc
            exact AcceptRes.noConfusion hc
          | ok fd2 =>
            rw [ha] at hc
            have hfd : fd2 = fd := by
              injection hc
            refine ⟨hw.1, hw.2, ?_, by omega, by rw [hfd]⟩
            simpa using hq2
  · intro hn h0 h1 hq2 fd ha
    rw [hbody, if_neg (by omega), if_neg (by push_neg; exact ⟨h0, h1⟩),
      if_neg (by simp [hq2]), ha]

/-- Witness for C5 at a concrete environment: poll returned 1 with only
the listening descriptor signalled and quit still unset, so the
connection with the accepted fd 7 is returned. -/
theorem accept_post_poll_dispatch_wit :
    LinuxListener.accept
      (AcceptEnv.mk false (PollRes.done 1 0 1) false (Except.ok 7)) =
      AcceptRes.conn 7 :=
  (accept_post_poll_dispatch
      (AcceptEnv.mk false (PollRes.done 1 0 1) false (Except.ok 7))
      1 0 1 rfl rfl).2.2.2 (by decide) rfl (by decide) rfl 7 rfl

/-- C6 counterexample: on the completion backend, a connect call that
completes synchronously (`ConnectNamedPipe` returning a nonzero value,
here 1) makes `accept` return `Err(io::Error::last_os_error())`
instead of proceeding to yield the connection, refuting the claimed
synchronous-completion case at the concrete environment with quit
unset, a fresh pipe instance handle 7, and stale last error 0. -/
theorem accept_sync_connect_returns_error :
    PipeListener.accept (WinAcceptEnv.mk false (Except.ok 7) 1 0 1 0) =
      WinAcceptRes.errOs 0 ∧
    ∀ h, PipeListener.accept (WinAcceptEnv.mk false (Except.ok 7) 1 0 1 0) ≠
      WinAcceptRes.conn h := by
  refine ⟨by decide, ?_⟩
  intro h hc
  rw [show PipeListener.accept
        (WinAcceptEnv.mk false (Except.ok 7) 1 0 1 0) =
        WinAcceptRes.errOs 0 by decide] at hc
  exact WinAcceptRes.noConfusion hc

/-- C6 amended: after the entry quit check and a successful instance
creation, a nonzero return of the connect call yields an error; a zero
return with pending status blocks on the overlapped-result query, whose
success yields the connection and whose failure yields an error; a zero
return with the pipe-connected status (client already connected) yields
the connection. -/
theorem accept_connect_outcome_dispatch :
    ∀ (env : WinAcceptEnv) (np : Nat), env.quit = false →
      env.newInstance = Except.ok np →
      ((env.connectRet ≠ 0 →
         PipeListener.accept env = WinAcceptRes.errOs env.lastError) ∧
       (env.connectRet = 0 → env.lastError = ERROR_IO_PENDING →
         env.ovRes ≠ 0 → PipeListener.accept env = WinAcceptRes.conn np) ∧
       (env.connectRet = 0 → env.lastError = ERROR_IO_PENDING →
         env.ovRes = 0 →
         PipeListener.accept env = WinAcceptRes.errOs env.ovLastError) ∧
       (env.connectRet = 0 → env.lastError = ERROR_PIPE_CONNECTED →
         PipeListener.accept env = WinAcceptRes.conn np)) := by
  intro env np hq hni
  have hbody : PipeListener.accept env =
      (if env.connectRet ≠ 0 then WinAcceptRes.errOs env.lastError
       else if env.lastError = ERROR_IO_PENDING then
         if env.ovRes = 0 then WinAcceptRes.errOs env.ovLastError
         else WinAcceptRes.conn np
       else if env.lastError = ERROR_PIPE_CONNECTED then WinAcceptRes.conn np
       else WinAcceptRes.errConnect env.lastError) := by
    rw [PipeListener.accept, if_neg (by simp [hq]), hni]
  refine ⟨?_, ?_, ?_, ?_⟩
  · intro hr
    rw [hbody, if_pos hr]
  · intro hr hpend hov
    rw [hbody, if_neg (by simp [hr]), if_pos hpend, if_neg hov]
  · intro hr hpend hov
    rw [hbody, if_neg (by simp [hr]), if_pos hpend, if_pos hov]
  · intro hr hconn
    rw [hbody, if_neg (by simp [hr]), if_neg (by rw [hconn]; decide),
      if_pos hconn]

/-- Witness for C6 amended at concrete environments: a pending connect
whose overlapped query succeeds yields the connection, and an
already-connected client yields the connection. -/
theorem accept_connect_outcome_dispatch_wit :
    PipeListener.accept (WinAcceptEnv.mk false (Except.ok 7) 0 997 1 0) =
      WinAcceptRes.conn 7 ∧
    PipeListener.accept (WinAcceptEnv.mk false (Except.ok 8) 0 535 0 0) =
      WinAcceptRes.conn 8 :=
  ⟨(accept_connect_outcome_dispatch
      (WinAcceptEnv.mk false (Except.ok 7) 0 997 1 0) 7 rfl rfl).2.1
      rfl (by decide) (by decide),
   (accept_connect_outcome_dispatch
      (WinAcceptEnv.mk false (Except.ok 8) 0 535 0 0) 8 rfl rfl).2.2.2
      rfl (by decide)⟩

/-- C7 counterexample: on the polling backend an interrupted readiness
wait (poll failing with EINTR) is returned by `accept` to the caller as
an OS error — the retryable condition is not absorbed internally by
`accept`, refuting the claim that no operation of the layer surfaces
an interrupted-syscall result. -/
theorem accept_surfaces_eintr :
    LinuxListener.accept
      (AcceptEnv.mk false (PollRes.fail EINTR) false (Except.ok 0)) =
      AcceptRes.err (AcceptErr.os EINTR) := by
  decide

/-- C7 amended: the polling-backend `read` and `write` loops absorb
every retryable outcome (EINTR, EAGAIN) internally, but `accept`
propagates a failed readiness wait — an interrupted one included — to
the caller as an error, leaving the retry to the outer loop of the
caller. -/
theorem retry_absorption_read_write_not_accept :
    (∀ (env : AcceptEnv) (e : Nat), env.quit1 = false →
      env.poll = PollRes.fail e →
      LinuxListener.accept env = AcceptRes.err (AcceptErr.os e)) ∧
    (∀ (e : Nat) (rest : List SysRes), retryable e = true →
      LinuxConnection.read (SysRes.err e :: rest) =
        LinuxConnection.read rest) ∧
    (∀ (e : Nat) (rest : List SysRes), retryable e = true →
      LinuxConnection.write (SysRes.err e :: rest) =
        LinuxConnection.write rest) := by
  refine ⟨?_, ?_, ?_⟩
  · intro env e hq hp
    rw [LinuxListener.accept, if_neg (by simp [hq]), hp]
  · intro e rest hr
    rw [LinuxConnection.read, if_pos hr]
  · intro e rest hr
    rw [LinuxConnection.write, if_pos hr]

/-- Witness for C7 amended at concrete inputs: accept surfaces a poll
failure with EINTR, while read and write absorb a leading EINTR and
EAGAIN respectively. -/
theorem retry_absorption_read_write_not_accept_wit :
    LinuxListener.accept
      (AcceptEnv.mk false (PollRes.fail 4) true (Except.ok 3)) =
      AcceptRes.err (AcceptErr.os 4) ∧
    LinuxConnection.read [SysRes.err 4, SysRes.ok 2] =
      LinuxConnection.read [SysRes.ok 2] ∧
    LinuxConnection.write [SysRes.err 11, SysRes.ok 2] =
      LinuxConnection.write [SysRes.ok 2] :=
  ⟨retry_absorption_read_write_not_accept.1
      (AcceptEnv.mk false (PollRes.fail 4) true (Except.ok 3)) 4 rfl rfl,
   retry_absorption_read_write_not_accept.2.1 4 [SysRes.ok 2] (by decide),
   retry_absorption_read_write_not_accept.2.2 11 [SysRes.ok 2] (by decide)⟩

/-- C8 counterexample: on the completion backend, a read whose OS call
fails immediately with `ERROR_BROKEN_PIPE` (the completion-backend
manifestation of a closed peer: return 0, no bytes) falls into the same
generic `Err(Error::Others("failed to read from pipe"))` catch-all arm
as an arbitrary unrelated failure (here last error 5, access denied) —
it is not surfaced as any distinguished peer-closed analogue. -/
theorem read_broken_pipe_generic_error :
    (PipeConnection.read (WinIoEnv.mk 16 0 0 ERROR_BROKEN_PIPE 0 0 0)).result =
      WinIoRes.errOthers ERROR_BROKEN_PIPE ∧
    (PipeConnection.read (WinIoEnv.mk 16 0 0 5 0 0 0)).result =
      WinIoRes.errOthers 5 := by
  constructor
  · decide
  · decide

/-- C8 amended: a `ReadFile`/`WriteFile` call that completes
immediately with nonzero return and positive byte count returns the
count directly; otherwise, a pending last error blocks on the
completion primitive and returns the transferred byte count on a
successful query or a Windows-coded error (the broken-pipe code
preserved as-is) on a failed one; every other immediate outcome —
a broken pipe and a zero-byte success included — is returned through
the generic `Error::Others` failure arm, no distinguished peer-closed
outcome existing in this layer. -/
theorem win_io_completion_dispatch :
    ∀ env : WinIoEnv,
      ((env.immRes > 0 ∧ env.immBytes > 0 →
         (PipeConnection.read env).result = WinIoRes.ok env.immBytes ∧
         (PipeConnection.write env).result = WinIoRes.ok env.immBytes) ∧
       (¬(env.immRes > 0 ∧ env.immBytes > 0) →
         env.lastError = ERROR_IO_PENDING → env.ovRes ≠ 0 →
         (PipeConnection.read env).result = WinIoRes.ok env.ovBytes ∧
         (PipeConnection.write env).result = WinIoRes.ok env.ovBytes) ∧
       (¬(env.immRes > 0 ∧ env.immBytes > 0) →
         env.lastError = ERROR_IO_PENDING → env.ovRes = 0 →
         (PipeConnection.read env).result =
           WinIoRes.errWindows env.ovLastError ∧
         (PipeConnection.write env).result =
           WinIoRes.errWindows env.ovLastError) ∧
       (¬(env.immRes > 0 ∧ env.immBytes > 0) →
         env.lastError ≠ ERROR_IO_PENDING →
         (PipeConnection.read env).result =
           WinIoRes.errOthers env.lastError ∧
         (PipeConnection.write env).result =
           WinIoRes.errOthers env.lastError)) := by
  intro env
  refine ⟨?_, ?_, ?_, ?_⟩
  · intro himm
    constructor
    · rw [PipeConnection.read]
      simp only [if_pos himm]
    · rw [PipeConnection.write]
      simp only [if_pos himm]
  · intro himm hpend hov
    constructor
    · rw [PipeConnection.read]
      simp only [if_neg himm, if_pos hpend, if_neg hov]
    · rw [PipeConnection.write]
      simp only [if_neg himm, if_pos hpend, if_neg hov]
  · intro himm hpend hov
    constructor
    · rw [PipeConnection.read]
      simp only [if_neg himm, if_pos hpend, if_pos hov]
    · rw [PipeConnection.write]
      simp only [if_neg himm, if_pos hpend, if_pos hov]
  · intro himm hpend
    constructor
    · rw [PipeConnection.read]
      simp only [if_neg himm, if_neg hpend]
    · rw [PipeConnection.write]
      simp only [if_neg himm, if_neg hpend]

/-- Witness for C8 amended at concrete environments: an immediate
3-byte completion returns 3, and a pending operation whose overlapped
query reports 42 transferred bytes returns 42. -/
theorem win_io_completion_dispatch_wit :
    (PipeConnection.read (WinIoEnv.mk 16 1 3 0 0 0 0)).result =
      WinIoRes.ok 3 ∧
    (PipeConnection.write (WinIoEnv.mk 16 0 0 997 1 42 0)).result =
      WinIoRes.ok 42 :=
  ⟨((win_io_completion_dispatch (WinIoEnv.mk 16 1 3 0 0 0 0)).1
      (by decide)).1,
   ((win_io_completion_dispatch (WinIoEnv.mk 16 0 0 997 1 42 0)).2.1
      (by decide) (by decide) (by decide)).2⟩

/-- C9 counterexample: on the completion backend, `PipeListener::new`
with a malformed pipe name returns `Ok` — it performs no validation and
does not fail with a platform error — and the invalid name surfaces
only in `accept`, where a failed `new_instance` (here Windows error
161, a bad pathname) hits `.unwrap()` and panics instead of returning
an error. -/
theorem pipelistener_new_never_fails_accept_panics :
    PipeListener.new "badname" =
      Except.ok (PipeListener.mk true "badname") ∧
    PipeListener.accept
      (WinAcceptEnv.mk false (Except.error 161) 0 0 0 0) =
      WinAcceptRes.panic := by
  constructor
  · rfl
  · rfl

/-- C9 amended: on the polling backend, a failing bind (nonexistent
directory) makes `Listener::new` return the error without panicking
(`do_bind` modelled from the spec); on the completion backend,
`Listener::new` succeeds for every address without validation, and an
invalid pipe name instead makes a later `accept` panic through the
`.unwrap()` on the failed instance creation. -/
theorem invalid_address_behaviour :
    (∀ (e : Nat) (listenRes : Except Nat Unit)
        (monRes : Except Nat (Nat × Nat)),
      LinuxListener.new (Except.error e) listenRes monRes =
        Except.error e) ∧
    (∀ s : String, PipeListener.new s =
      Except.ok (PipeListener.mk true s)) ∧
    (∀ (env : WinAcceptEnv) (e : Nat), env.quit = false →
      env.newInstance = Except.error e →
      PipeListener.accept env = WinAcceptRes.panic) := by
  refine ⟨?_, ?_, ?_⟩
  · intro e listenRes monRes
    rfl
  · intro s
    rfl
  · intro env e hq hni
    rw [PipeListener.accept, if_neg (by simp [hq]), hni]

/-- Witness for C9 amended at concrete inputs: a bind failing with
errno 2 (ENOENT, nonexistent directory) propagates out of the polling
listener constructor, and a completion-backend accept with a failed
instance creation panics. -/
theorem invalid_address_behaviour_wit :
    LinuxListener.new (Except.error 2) (Except.ok ()) (Except.ok (5, 6)) =
      Except.error 2 ∧
    PipeListener.accept
      (WinAcceptEnv.mk false (Except.error 161) 1 0 0 0) =
      WinAcceptRes.panic :=
  ⟨invalid_address_behaviour.1 2 (Except.ok ()) (Except.ok (5, 6)),
   invalid_address_behaviour.2.2
      (WinAcceptEnv.mk false (Except.error 161) 1 0 0 0) 161 rfl rfl⟩

/-- C10: on the completion backend both `read` and `write` pass
`min(buf.len(), u32::MAX)` as the transfer length to the OS call, so a
single call requests at most `u32::MAX` bytes even for a larger
buffer, and exactly the buffer length for a smaller one. -/
theorem transfer_length_clamped_u32max :
    ∀ env : WinIoEnv,
      (PipeConnection.read env).len = min env.bufLen U32_MAX ∧
      (PipeConnection.write env).len = min env.bufLen U32_MAX ∧
      (PipeConnection.read env).len ≤ U32_MAX ∧
      (PipeConnection.write env).len ≤ U32_MAX := by
  intro env
  refine ⟨rfl, rfl, ?_, ?_⟩
  · exact Nat.min_le_right _ _
  · exact Nat.min_le_right _ _
